import Mathlib

/-!
Shallow embedding of the drugba-metro economic core
(src/models/money.py, src/models/metro.py, src/main.py).

Python integers are modelled as `Int`, identifiers as `Nat`, Python's
`None`-able fields as `Option`, raised exceptions as `Except`, and the
ORM object graph as explicit lists of records resolved by identifier.
-/

namespace DrugbaMetro

/-! ## models/money.py : wallet and transactions -/

/-- Constant `Wallet.INITIAL_BALANCE = 10000` (src/models/money.py line 17). -/
def INITIAL_BALANCE : Int := 10000

/-- Constructor `Wallet.__init__`: `self.current_balance = initial_balance or Wallet.INITIAL_BALANCE`
(src/models/money.py line 28).  Python `or` takes the right operand when the
left one is falsy, i.e. when `initial_balance` is `None` or `0`. -/
def walletInitBalance (initial_balance : Option Int) : Int :=
  match initial_balance with
  | none => INITIAL_BALANCE
  | some v => if v = 0 then INITIAL_BALANCE else v

/-- Enum `TransactionType` (src/models/money.py lines 31-33). -/
inductive TransactionType where
  | deposit
  | withdrawal
deriving DecidableEq, Repr

/-- Enum `TransactionStatus` (src/models/money.py lines 36-39). -/
inductive TransactionStatus where
  | created
  | completed
  | failed
deriving DecidableEq, Repr

/-- The in-memory `Wallet` row: `squad_id`, the owning squad's `number`
(reached in the code as `wallet.squad.number`), and `current_balance`. -/
structure Wallet where
  squad_id : Nat
  squad_number : Nat
  current_balance : Int
deriving DecidableEq, Repr

/-- A `Transaction` row after `execute` ran (src/models/money.py lines 42-56);
`wallet_squad_id` stands for the `wallet_id` foreign key, resolved to the
wallet's squad. The `timestamp` and `made_by` columns carry no logic and are
omitted. -/
structure Transaction where
  wallet_squad_id : Nat
  ttype : TransactionType
  amount : Int
  reason : String
  comment : String
  status : TransactionStatus
deriving DecidableEq, Repr

/-- The f-string comment of `Deposit.execute` (src/models/money.py line 85). -/
def depositComment (amount old new : Int) : String :=
  "Пополнение на сумму " ++ toString amount ++ ". Баланс: " ++ toString old
    ++ " -> " ++ toString new

/-- Method `Deposit.execute` (src/models/money.py lines 82-86): unconditionally adds
`amount` to the balance and completes the transaction. -/
def Deposit.execute (w : Wallet) (amount : Int) (reason : String) :
    Wallet × Transaction :=
  let old_balance := w.current_balance
  let new_balance := old_balance + amount
  ({ w with current_balance := new_balance },
   { wallet_squad_id := w.squad_id
     ttype := TransactionType.deposit
     amount := amount
     reason := reason
     comment := depositComment amount old_balance new_balance
     status := TransactionStatus.completed })

/-- The failure comment of `Withdrawal.execute` (src/models/money.py line 98). -/
def withdrawalFailComment (available deficit : Int) : String :=
  "Списание невозможно. Недостаточно средств. Доступно: " ++ toString available
    ++ ", требуется ещё " ++ toString deficit ++ "."

/-- The success comment of `Withdrawal.execute` (src/models/money.py line 105). -/
def withdrawalOkComment (amount old new : Int) : String :=
  "Списание на сумму " ++ toString amount ++ ". Баланс: " ++ toString old
    ++ " -> " ++ toString new

/-- The message of the `ValueError` raised by `Withdrawal.execute`
(src/models/money.py lines 100-102). -/
def withdrawErrorMsg (squad_number : Nat) (deficit : Int) : String :=
  toString squad_number ++ " отряду недостаточно средств. Необходимо ещё "
    ++ toString deficit ++ " дружбанов."

/-- The `ValueError` raised by `Withdrawal.execute`, carrying the computed
deficit and the squad number that appears in its message. -/
structure InsufficientFunds where
  squad_number : Nat
  deficit : Int
deriving DecidableEq, Repr

/-- Method `Withdrawal.execute` (src/models/money.py lines 95-106).  When
`amount > current_balance` the balance is untouched, the transaction is
recorded `failed` with a comment naming the deficit, and a `ValueError`
carrying the deficit is raised (third component `some _`); otherwise the
balance drops by `amount` and the transaction completes. -/
def Withdrawal.execute (w : Wallet) (amount : Int) (reason : String) :
    Wallet × Transaction × Option InsufficientFunds :=
  if amount > w.current_balance then
    let deficit := amount - w.current_balance
    (w,
     { wallet_squad_id := w.squad_id
       ttype := TransactionType.withdrawal
       amount := amount
       reason := reason
       comment := withdrawalFailComment w.current_balance deficit
       status := TransactionStatus.failed },
     some { squad_number := w.squad_number, deficit := deficit })
  else
    let old_balance := w.current_balance
    let new_balance := old_balance - amount
    ({ w with current_balance := new_balance },
     { wallet_squad_id := w.squad_id
       ttype := TransactionType.withdrawal
       amount := amount
       reason := reason
       comment := withdrawalOkComment amount old_balance new_balance
       status := TransactionStatus.completed },
     none)

/-! ### The ledger as a sequence of executed operations (for the balance
invariant): every `Deposit.execute` / `Withdrawal.execute` call appends its
transaction to the wallet's history. -/

/-- One ledger operation: a `Deposit.execute` or a `Withdrawal.execute` call. -/
inductive LedgerOp where
  | dep (amount : Int) (reason : String)
  | wd (amount : Int) (reason : String)
deriving DecidableEq, Repr

/-- Run one operation against the wallet, appending the recorded transaction
(callers in src/main.py always `session.add` the transaction object before
`execute`, so the failed withdrawal's row is kept as well). -/
def ledgerStep (st : Wallet × List Transaction) (op : LedgerOp) :
    Wallet × List Transaction :=
  match op with
  | LedgerOp.dep a r =>
      let res := Deposit.execute st.1 a r
      (res.1, st.2 ++ [res.2])
  | LedgerOp.wd a r =>
      let res := Withdrawal.execute st.1 a r
      (res.1, st.2 ++ [res.2.1])

/-- Run a whole sequence of executed operations from wallet creation
(empty transaction history). -/
def runLedger (w0 : Wallet) (ops : List LedgerOp) : Wallet × List Transaction :=
  ops.foldl ledgerStep (w0, [])

/-- Sum of the amounts of the transactions of kind `ty` whose status is
`completed`. -/
def completedSum (ty : TransactionType) (ts : List Transaction) : Int :=
  ((ts.filter fun t =>
      t.status == TransactionStatus.completed && t.ttype == ty).map
    fun t => t.amount).sum

/-- Balance bookkeeping invariant of a ledger state relative to the wallet's
initial balance. -/
def ledgerInvariant (init : Int) (st : Wallet × List Transaction) : Prop :=
  st.1.current_balance = init
    + completedSum TransactionType.deposit st.2
    - completedSum TransactionType.withdrawal st.2

/-! ## models/metro.py : lines and stations -/

/-- A `Squad` row (src/models/camp.py lines 26-45): only `id` and `number`
carry logic here. -/
structure Squad where
  id : Nat
  number : Nat
deriving DecidableEq, Repr

/-- A `Station` row (src/models/metro.py lines 74-96). -/
structure Station where
  id : Nat
  name : String
  initial_price : Int
  line_id : Nat
  owner_id : Option Nat
deriving DecidableEq, Repr

/-- A `Line` row (src/models/metro.py lines 14-36); `full_line_coef` is a
Python float, modelled as a rational. -/
structure Line where
  id : Nat
  name : String
  full_line_coef : ℚ
deriving DecidableEq, Repr

/-- The ORM relationship `station.owner`: the squad whose `id` is the
station's `owner_id`, if any. -/
def stationOwner (squads : List Squad) (s : Station) : Option Squad :=
  s.owner_id.bind fun oid => squads.find? fun sq => sq.id == oid

/-- The ORM relationship `line.stations`: the stations whose `line_id` is the
line's `id`. -/
def lineStations (stations : List Station) (l : Line) : List Station :=
  stations.filter fun s => s.line_id == l.id

/-- The ORM relationship `squad.stations` (back-populated from
`Station.owner`): the stations owned by the squad. -/
def squadStations (stations : List Station) (sq : Squad) : List Station :=
  stations.filter fun s => s.owner_id == some sq.id

/-- Python dict assignment `d[k] = v` on an association list. -/
def dictAssign (d : List (Nat × Nat)) (k v : Nat) : List (Nat × Nat) :=
  if d.any fun p => p.1 == k then
    d.map fun p => if p.1 == k then (k, v) else p
  else d ++ [(k, v)]

/-- Method `Line.get_number_of_stations_owned_by_squads`
(src/models/metro.py lines 48-56).  The code tests `if station not in result`,
comparing a `Station` object against the dict's integer keys, which is always
true; hence every owned station executes `result[station.owner.number] = 0`. -/
def Line.get_number_of_stations_owned_by_squads (squads : List Squad)
    (stations : List Station) (l : Line) : List (Nat × Nat) :=
  (lineStations stations l).foldl
    (fun result station =>
      match stationOwner squads station with
      | none => result
      | some owner => dictAssign result owner.number 0)
    []

/-- Method `Line.get_number_of_station_owners` (src/models/metro.py lines 58-59). -/
def Line.get_number_of_station_owners (squads : List Squad)
    (stations : List Station) (l : Line) : Nat :=
  (l.get_number_of_stations_owned_by_squads squads stations).length

/-- Method `Line.is_all_stations_bought` (src/models/metro.py lines 61-65). -/
def Line.is_all_stations_bought (squads : List Squad)
    (stations : List Station) (l : Line) : Bool :=
  (lineStations stations l).all fun s => (stationOwner squads s).isSome

/-- Method `Line.is_owned_by_one_squad` (src/models/metro.py lines 67-71): every
station of the line has an owner and the dict of owners has exactly one key.
Note it does not check that this owner is any particular squad. -/
def Line.is_owned_by_one_squad (squads : List Squad)
    (stations : List Station) (l : Line) : Bool :=
  l.is_all_stations_bought squads stations
    && (l.get_number_of_stations_owned_by_squads squads stations).length == 1

/-- Method `Line.get_sum_of_stations_by_squad` (src/models/metro.py lines 38-46).
The loop runs over `squad.stations` — all stations owned by the squad, on
any line — not over `self.stations`; the multiplication by
`self.full_line_coef` (with `math.floor`) triggers whenever the *line* is
owned by one squad, whoever that squad is. -/
def Line.get_sum_of_stations_by_squad (squads : List Squad)
    (stations : List Station) (l : Line) (squad : Squad) : Int :=
  let base : Int := (squadStations stations squad).foldl
    (fun acc station =>
      if stationOwner squads station == some squad
      then acc + station.initial_price else acc) 0
  if l.is_owned_by_one_squad squads stations
  then ((base : ℚ) * l.full_line_coef).floor
  else base

/-- Modelled from the spec: `line_bonus(line, squad)` sums `initial_price`
of every station **on the line** owned by `squad`, and multiplies (with
floor) by the line's coefficient iff the line has no unowned station and
`squad` is the single distinct owner of all its stations. -/
def lineBonusSpec (squads : List Squad) (stations : List Station) (l : Line)
    (squad : Squad) : Int :=
  let ls := lineStations stations l
  let base : Int := (ls.filter fun s => stationOwner squads s == some squad).foldl
    (fun acc s => acc + s.initial_price) 0
  if !ls.isEmpty && ls.all (fun s => stationOwner squads s == some squad)
  then ((base : ℚ) * l.full_line_coef).floor
  else base

/-! ## models/money.py : squad requests, and src/main.py : endpoint logic -/

/-- Enum `RequestStatus` (src/models/money.py lines 114-117). -/
inductive RequestStatus where
  | created
  | approved
  | rejected
deriving DecidableEq, Repr

/-- The polymorphic payload of a request: `PurchaseStationRequest`
(src/models/money.py lines 144-154) or `ExchangeRequest`
(src/models/money.py lines 157-199). -/
inductive RequestData where
  | stationPurchase (station_id : Nat)
  | exchange (another_squad_id : Nat) (origin_station_ids : List Nat)
      (another_station_ids : List Nat)
      (your_squad_withdraw another_squad_withdraw : Int)
deriving DecidableEq, Repr

/-- A `SquadRequest` row (src/models/money.py lines 120-141).  Its fields
are `id`, `status`, `type` + payload, and `origin_squad_id`; neither
`SquadRequest` nor `PurchaseStationRequest` defines a `squad_id`
attribute, so reading `.squad_id` on one raises `AttributeError`. -/
structure SquadRequest where
  id : Nat
  status : RequestStatus
  origin_squad_id : Nat
  data : RequestData
deriving DecidableEq, Repr

/-- The persistent state the endpoints read and write. -/
structure AppState where
  squads : List Squad
  stations : List Station
  wallets : List Wallet
  transactions : List Transaction
  requests : List SquadRequest
  nextRequestId : Nat
deriving DecidableEq, Repr

/-- A JSON response: HTTP status code and message. -/
structure Response where
  status_code : Nat
  message : String
deriving DecidableEq, Repr

/-- Result of an endpoint call: a JSON response with the committed state,
or an uncaught exception (named by the string), after which the session is
rolled back. -/
abbrev EndpointResult := Except String (Response × AppState)

/-- SQLAlchemy query method `one_or_none()`: `none` when no row matches, the row when
exactly one does, and a `MultipleResultsFound` exception otherwise. -/
def one_or_none {α : Type} (p : α → Bool) (l : List α) :
    Except String (Option α) :=
  match l.filter p with
  | [] => Except.ok none
  | [x] => Except.ok (some x)
  | _ => Except.error ("MultipleResultsFound")

/-- Endpoint `change_station_owner` (src/main.py lines 489-562), after the
authentication and role checks.  `squad_id` arrives from the form as an int
compared against `-1`.  The `if station.owner_id:` test on line 535 is
Python truthiness: both `None` and `0` count as unowned.  When the wallet
with that `squad_id` exists, `squad_id` is nonnegative, so recording the new
owner as a natural number loses nothing. -/
def change_station_owner (st : AppState) (station_id : Nat) (squad_id : Int) :
    EndpointResult :=
  if squad_id == -1 then
    Except.ok (Response.mk 501
      ("Возврат временно не поддерживается."), st)
  else
    match one_or_none (fun w => (w.squad_id : Int) == squad_id) st.wallets with
    | Except.error e => Except.error e
    | Except.ok none => Except.ok (Response.mk 400
        ("Состав не найден"), st)
    | Except.ok (some wallet) =>
      match one_or_none (fun s => s.id == station_id) st.stations with
      | Except.error e => Except.error e
      | Except.ok none => Except.ok (Response.mk 400
          ("Станция не найдена"), st)
      | Except.ok (some station) =>
        if station.owner_id.getD 0 != 0 then
          Except.ok (Response.mk 400
            ("Станция уже куплена. Перепродажа будет реализована позже."),
            st)
        else
          let res := Withdrawal.execute wallet station.initial_price
            ("Покупка станции " ++ station.name)
          match res.2.2 with
          | some e =>
              Except.ok (Response.mk 400
                (withdrawErrorMsg e.squad_number e.deficit),
                { st with transactions := st.transactions ++ [res.2.1] })
          | none =>
              Except.ok (Response.mk 201
                ("Станция " ++ station.name ++ " куплена "
                  ++ toString squad_id ++ " отрядом за "
                  ++ toString station.initial_price ++ " дружбанов"),
                { st with
                  wallets := st.wallets.map (fun w =>
                    if w.squad_id == wallet.squad_id then res.1 else w)
                  transactions := st.transactions ++ [res.2.1]
                  stations := st.stations.map (fun s =>
                    if s.id == station.id
                    then { s with owner_id := some squad_id.toNat } else s) })

/-- The prior-request scan of `create_purchase_request`
(src/main.py lines 411-432).  `acc` is the running `sum` of the user's open
requests' prices; but a prior purchase request whose `station_id` matches
(line 416) or whose status is `Created` (line 430) makes the code read
`purchase_request.squad_id` — an attribute `PurchaseStationRequest` does not
have — raising `AttributeError` before `sum` can ever be incremented, and
before the two duplicate-request responses of lines 417-427 can be reached. -/
def scanPriorRequests (target_station_id : Nat) :
    List SquadRequest → Int → Except String Int
  | [], acc => Except.ok acc
  | r :: rest, acc =>
      match r.data with
      | RequestData.stationPurchase sid =>
          if sid == target_station_id then Except.error ("squad_id")
          else if r.status == RequestStatus.created then
            Except.error ("squad_id")
          else scanPriorRequests target_station_id rest acc
      | _ => scanPriorRequests target_station_id rest acc

/-- Endpoint `create_purchase_request` (src/main.py lines 370-445), after the
authentication and role checks.  `user_squad_id` is `user_2.squad_id`;
`withinWindow` is the result of the clock test on line 397 against the
20:30–23:30 window.  Note there is no check of `station.owner_id`. -/
def create_purchase_request (st : AppState) (user_squad_id station_id : Nat)
    (withinWindow : Bool) : EndpointResult :=
  if !withinWindow then
    Except.ok (Response.mk 400
      ("Создать заявку можно только в промежутке 20:30 - 23:30."),
      st)
  else
    match one_or_none (fun s => s.id == station_id) st.stations with
    | Except.error e => Except.error e
    | Except.ok none => Except.ok (Response.mk 400
        ("Станция не найдена"), st)
    | Except.ok (some station) =>
      match scanPriorRequests station.id st.requests 0 with
      | Except.error e => Except.error e
      | Except.ok sum =>
        match st.wallets.find? fun w => w.squad_id == user_squad_id with
        | none => Except.error ("current_balance")
        | some wallet =>
        if sum + station.initial_price > wallet.current_balance then
          Except.ok (Response.mk 400
            ("Вам не хватает дружбанов на эту станцию. Нужно ещё "
              ++ toString (sum + station.initial_price
                - wallet.current_balance) ++ "."), st)
        else
          Except.ok (Response.mk 201
            ("Заявка на покупку станции " ++ station.name
              ++ " создана."),
            { st with
              requests := st.requests ++
                [{ id := st.nextRequestId
                   status := RequestStatus.created
                   origin_squad_id := user_squad_id
                   data := RequestData.stationPurchase station.id }]
              nextRequestId := st.nextRequestId + 1 })

/-- Endpoint `add_balance` (src/main.py lines 565-625), after the authentication and
role checks.  When `ty` is neither of the two expected strings, no
transaction runs but the 201 response is still returned. -/
def add_balance (st : AppState) (squad_id : Nat) (ty : String) (amount : Int)
    (reason : String) : EndpointResult :=
  match one_or_none (fun w => w.squad_id == squad_id) st.wallets with
  | Except.error e => Except.error e
  | Except.ok none => Except.ok (Response.mk 400
      ("Состав не найден"), st)
  | Except.ok (some wallet) =>
    let okMsg : Int → String := fun newBal =>
      "Баланс " ++ toString squad_id ++ " отряда успешно обновлен ("
        ++ toString wallet.current_balance ++ " -> " ++ toString newBal ++ ")"
    if ty == "deposit" then
      let res := Deposit.execute wallet amount reason
      Except.ok (Response.mk 201
        (okMsg res.1.current_balance),
        { st with
          wallets := st.wallets.map (fun w =>
            if w.squad_id == wallet.squad_id then res.1 else w)
          transactions := st.transactions ++ [res.2] })
    else if ty == "withdraw" then
      let res := Withdrawal.execute wallet amount reason
      match res.2.2 with
      | some e =>
          Except.ok (Response.mk 400
            (withdrawErrorMsg e.squad_number e.deficit),
            { st with transactions := st.transactions ++ [res.2.1] })
      | none =>
          Except.ok (Response.mk 201
            (okMsg res.1.current_balance),
            { st with
              wallets := st.wallets.map (fun w =>
                if w.squad_id == wallet.squad_id then res.1 else w)
              transactions := st.transactions ++ [res.2.1] })
    else
      Except.ok (Response.mk 201
        (okMsg wallet.current_balance), st)

/-- Endpoint `process_request` (src/main.py lines 628-686), after the authentication
and role checks.  For a `Created` purchase request, line 674 evaluates
`purchase_request.squad_id` while building the `change_station_owner` call —
an attribute the request does not have — so an `AttributeError` is raised;
for an exchange request the `case _` arm returns 501. -/
def process_request (st : AppState) (request_id : Nat) : EndpointResult :=
  match one_or_none (fun r => r.id == request_id) st.requests with
  | Except.error e => Except.error e
  | Except.ok none => Except.ok (Response.mk 400
      ("Запрос не найден"), st)
  | Except.ok (some squad_request) =>
      if squad_request.status != RequestStatus.created then
        Except.ok (Response.mk 400
          ("Запрос уже был обработан."), st)
      else
        match squad_request.data with
        | RequestData.stationPurchase _ => Except.error ("squad_id")
        | RequestData.exchange _ _ _ _ _ =>
            Except.ok (Response.mk 501
              ("Обработка других запросов будет реализована позже."),
              st)

/-- One call to a state-mutating endpoint of src/main.py. -/
inductive Op where
  | createPurchase (user_squad_id station_id : Nat) (withinWindow : Bool)
  | changeOwner (station_id : Nat) (squad_id : Int)
  | addBalance (squad_id : Nat) (ty : String) (amount : Int) (reason : String)
  | processReq (request_id : Nat)
deriving DecidableEq, Repr

/-- Dispatch an endpoint call. -/
def endpoint (st : AppState) : Op → EndpointResult
  | Op.createPurchase u s w => create_purchase_request st u s w
  | Op.changeOwner s q => change_station_owner st s q
  | Op.addBalance q t a r => add_balance st q t a r
  | Op.processReq r => process_request st r

/-- The state after an endpoint call: committed when a response is returned,
rolled back by `session_scope` when an exception escapes. -/
def runOp (st : AppState) (op : Op) : AppState :=
  match endpoint st op with
  | Except.ok pr => pr.2
  | Except.error _ => st

/-- Status of the request with the given id, if present. -/
def requestStatus (st : AppState) (rid : Nat) : Option RequestStatus :=
  (st.requests.find? fun r => r.id == rid).map fun r => r.status

/-- Owner of the station with the given id, if the station is present. -/
def stationOwnerId (st : AppState) (sid : Nat) : Option (Option Nat) :=
  (st.stations.find? fun s => s.id == sid).map fun s => s.owner_id

/-- Balance of the wallet of the given squad, if present. -/
def walletBalance (st : AppState) (squad_id : Nat) : Option Int :=
  (st.wallets.find? fun w => w.squad_id == squad_id).map
    fun w => w.current_balance

/-! ## Concrete fixtures used by the theorems below -/

/-- Two squads; squad 2 owns the single station of line 1, squad 1 owns a
station on line 2. -/
def C3squads : List Squad := [⟨1, 1⟩, ⟨2, 2⟩]

/-- Line 1 with bonus coefficient 3/2. -/
def C3line : Line := ⟨1, "Кольцевая", 3/2⟩

/-- Station 1 (price 100) is on line 1 and owned by squad 2; station 2
(price 200) is on line 2 and owned by squad 1. -/
def C3stations : List Station :=
  [⟨1, "Киевская", 100, 1, some 2⟩, ⟨2, "Тверская", 200, 2, some 1⟩]

/-- Squad 1. -/
def C3squad1 : Squad := ⟨1, 1⟩

/-- Station 1 (price 5000) is already owned by squad 2; squad 1 has 10000
and no requests exist. -/
def stateC4 : AppState :=
  { squads := [⟨1, 1⟩, ⟨2, 2⟩]
    stations := [⟨1, "Киевская", 5000, 1, some 2⟩]
    wallets := [⟨1, 1, 10000⟩, ⟨2, 2, 10000⟩]
    transactions := []
    requests := []
    nextRequestId := 1 }

/-- A `Created` purchase request by squad 1 for the unowned station 1 priced
12000, while squad 1's wallet holds only 10000. -/
def stateC5 : AppState :=
  { squads := [⟨1, 1⟩]
    stations := [⟨1, "Киевская", 12000, 1, none⟩]
    wallets := [⟨1, 1, 10000⟩]
    transactions := []
    requests := [⟨1, RequestStatus.created, 1, RequestData.stationPurchase 1⟩]
    nextRequestId := 2 }

/-- A `Created` purchase request by squad 1 for the unowned station 1 priced
5000, with squad 1's wallet holding 10000: every precondition of a
successful approval holds. -/
def stateC6 : AppState :=
  { squads := [⟨1, 1⟩]
    stations := [⟨1, "Киевская", 5000, 1, none⟩]
    wallets := [⟨1, 1, 10000⟩]
    transactions := []
    requests := [⟨1, RequestStatus.created, 1, RequestData.stationPurchase 1⟩]
    nextRequestId := 2 }

/-- The spec's exchange scenario: squad 1 offers stations 1 and 2 plus 1000
cash, squad 2 offers station 3; both wallets hold 10000; the exchange
request is `Created`. -/
def stateC7 : AppState :=
  { squads := [⟨1, 1⟩, ⟨2, 2⟩]
    stations := [⟨1, "Киевская", 5000, 1, some 1⟩,
                 ⟨2, "Тверская", 5000, 1, some 1⟩,
                 ⟨3, "Арбатская", 5000, 2, some 2⟩]
    wallets := [⟨1, 1, 10000⟩, ⟨2, 2, 10000⟩]
    transactions := []
    requests := [⟨1, RequestStatus.created, 1,
      RequestData.exchange 2 [1, 2] [3] 1000 0⟩]
    nextRequestId := 2 }

/-- One prior `Created` purchase request (for station 2) exists while squad 1
creates a purchase request for station 1. -/
def stateC8 : AppState :=
  { squads := [⟨1, 1⟩]
    stations := [⟨1, "Киевская", 100, 1, none⟩, ⟨2, "Тверская", 100, 1, none⟩]
    wallets := [⟨1, 1, 10000⟩]
    transactions := []
    requests := [⟨1, RequestStatus.created, 1, RequestData.stationPurchase 2⟩]
    nextRequestId := 2 }

/-- Request 1 has already been approved. -/
def stateC9 : AppState :=
  { squads := [⟨1, 1⟩]
    stations := [⟨1, "Киевская", 5000, 1, some 1⟩]
    wallets := [⟨1, 1, 5000⟩]
    transactions := []
    requests := [⟨1, RequestStatus.approved, 1, RequestData.stationPurchase 1⟩]
    nextRequestId := 2 }

/-! ## Helper lemmas -/

theorem completedSum_append (ty : TransactionType) (l : List Transaction)
    (t : Transaction) :
    completedSum ty (l ++ [t]) = completedSum ty l
      + (if t.status == TransactionStatus.completed && t.ttype == ty
         then t.amount else 0) := by
  simp only [completedSum, List.filter_append, List.map_append, List.sum_append]
  by_cases h : (t.status == TransactionStatus.completed && t.ttype == ty) = true
  · simp [h]
  · simp [h]

theorem ledgerStep_preserves (init : Int) (st : Wallet × List Transaction)
    (op : LedgerOp) (h : ledgerInvariant init st) :
    ledgerInvariant init (ledgerStep st op) := by
  cases op with
  | dep a r =>
      simp only [ledgerInvariant, ledgerStep, Deposit.execute,
        completedSum_append] at h ⊢
      simp
      all_goals omega
  | wd a r =>
      simp only [ledgerInvariant, ledgerStep, Withdrawal.execute] at h ⊢
      by_cases hc : a > st.1.current_balance
      · simp only [if_pos hc, completedSum_append]
        simp
        all_goals omega
      · simp only [if_neg hc, completedSum_append]
        simp
        all_goals omega

theorem runLedger_invariant (w0 : Wallet) (ops : List LedgerOp)
    (hinit : ledgerInvariant w0.current_balance (w0, [])) :
    ledgerInvariant w0.current_balance (runLedger w0 ops) := by
  rw [runLedger]
  generalize hst : ((w0, []) : Wallet × List Transaction) = st at hinit
  clear hst
  induction ops generalizing st with
  | nil => exact hinit
  | cons op rest ih =>
      exact ih (ledgerStep st op) (ledgerStep_preserves _ st op hinit)

theorem rat_floor_eq_int_floor (q : ℚ) : q.floor = Int.floor q := by
  rw [Rat.floor_def', Rat.floor_def]

theorem rat_floor_intCast (z : ℤ) : ((z : ℚ)).floor = z := by
  rw [rat_floor_eq_int_floor]
  exact Int.floor_intCast z

theorem find?_append_of_some {α : Type} (p : α → Bool) (l₁ l₂ : List α)
    (x : α) (h : l₁.find? p = some x) : (l₁ ++ l₂).find? p = some x := by
  induction l₁ with
  | nil => simp [List.find?] at h
  | cons a t ih =>
      rw [List.cons_append]
      rw [List.find?_cons] at h ⊢
      cases hpa : p a with
      | true => rw [hpa] at h; exact h
      | false => rw [hpa] at h; exact ih h

theorem process_request_state (st : AppState) (rid : Nat) (resp : Response)
    (st' : AppState) (h : process_request st rid = Except.ok (resp, st')) :
    st' = st := by
  unfold process_request at h
  cases hq : one_or_none (fun r => r.id == rid) st.requests with
  | error e => rw [hq] at h; simp at h
  | ok reqOpt =>
      rw [hq] at h
      cases reqOpt with
      | none => simp at h; exact h.2.symm
      | some r =>
          by_cases hs : (r.status != RequestStatus.created) = true
          · simp [hs] at h
            exact h.2.symm
          · cases hd : r.data with
            | stationPurchase sid => simp [hs, hd] at h
            | exchange a b c d e =>
                simp [hs, hd] at h
                exact h.2.symm

theorem change_station_owner_requests (st : AppState) (sid : Nat) (qid : Int)
    (resp : Response) (st' : AppState)
    (h : change_station_owner st sid qid = Except.ok (resp, st')) :
    st'.requests = st.requests := by
  unfold change_station_owner at h
  by_cases h1 : (qid == -1) = true
  · simp [h1] at h
    rw [← h.2]
  · cases hw : one_or_none (fun w => ((w.squad_id : Int) == qid)) st.wallets with
    | error e => simp [h1, hw] at h
    | ok wo =>
        cases wo with
        | none => simp [h1, hw] at h; rw [← h.2]
        | some wallet =>
            cases hst : one_or_none (fun s => s.id == sid) st.stations with
            | error e => simp [h1, hw, hst] at h
            | ok so =>
                cases so with
                | none => simp [h1, hw, hst] at h; rw [← h.2]
                | some station =>
                    by_cases ho : (station.owner_id.getD 0 != 0) = true
                    · simp [h1, hw, hst, ho] at h
                      rw [← h.2]
                    · cases he : (Withdrawal.execute wallet
                          station.initial_price
                          ("Покупка станции " ++ station.name)).2.2 with
                      | some e =>
                          simp [h1, hw, hst, ho, he] at h
                          rw [← h.2]
                      | none =>
                          simp [h1, hw, hst, ho, he] at h
                          rw [← h.2]

theorem add_balance_requests (st : AppState) (q : Nat) (ty : String)
    (a : Int) (rsn : String) (resp : Response) (st' : AppState)
    (h : add_balance st q ty a rsn = Except.ok (resp, st')) :
    st'.requests = st.requests := by
  unfold add_balance at h
  cases hw : one_or_none (fun w => w.squad_id == q) st.wallets with
  | error e => simp [hw] at h
  | ok wo =>
      cases wo with
      | none => simp [hw] at h; rw [← h.2]
      | some wallet =>
          by_cases hd : (ty == "deposit") = true
          · simp [hw, hd] at h
            rw [← h.2]
          · by_cases hwd : (ty == "withdraw") = true
            · cases he : (Withdrawal.execute wallet a rsn).2.2 with
              | some e =>
                  simp [hw, hd, hwd, he] at h
                  rw [← h.2]
              | none =>
                  simp [hw, hd, hwd, he] at h
                  rw [← h.2]
            · simp [hw, hd, hwd] at h
              rw [← h.2]

theorem create_purchase_request_requests (st : AppState) (u sid : Nat)
    (w : Bool) (resp : Response) (st' : AppState)
    (h : create_purchase_request st u sid w = Except.ok (resp, st')) :
    ∃ tl : List SquadRequest, st'.requests = st.requests ++ tl := by
  unfold create_purchase_request at h
  by_cases hwin : (!w) = true
  · simp [hwin] at h
    exact ⟨[], by rw [← h.2]; simp⟩
  · cases hst : one_or_none (fun s => s.id == sid) st.stations with
    | error e => simp [hwin, hst] at h
    | ok so =>
        cases so with
        | none =>
            simp [hwin, hst] at h
            exact ⟨[], by rw [← h.2]; simp⟩
        | some station =>
            cases hscan : scanPriorRequests station.id st.requests 0 with
            | error e => simp [hwin, hst, hscan] at h
            | ok sum =>
                cases hfw : st.wallets.find? fun wl => wl.squad_id == u with
                | none => simp [hwin, hst, hscan, hfw] at h
                | some wallet =>
                    by_cases hb : sum + station.initial_price
                        > wallet.current_balance
                    · simp [hwin, hst, hscan, hfw, hb] at h
                      exact ⟨[], by rw [← h.2]; simp⟩
                    · simp [hwin, hst, hscan, hfw, hb] at h
                      refine ⟨[{ id := st.nextRequestId
                                 status := RequestStatus.created
                                 origin_squad_id := u
                                 data := RequestData.stationPurchase station.id }],
                              ?_⟩
                      rw [← h.2]

theorem runOp_requests_suffix (st : AppState) (op : Op) :
    ∃ tl : List SquadRequest, (runOp st op).requests = st.requests ++ tl := by
  cases op with
  | createPurchase u s w =>
      rw [runOp, endpoint]
      cases h : create_purchase_request st u s w with
      | error e => exact ⟨[], by simp⟩
      | ok pr => exact create_purchase_request_requests st u s w pr.1 pr.2 (by rw [h])
  | changeOwner s q =>
      rw [runOp, endpoint]
      cases h : change_station_owner st s q with
      | error e => exact ⟨[], by simp⟩
      | ok pr =>
          exact ⟨[], by simpa using change_station_owner_requests st s q pr.1 pr.2 (by rw [h])⟩
  | addBalance q t a r =>
      rw [runOp, endpoint]
      cases h : add_balance st q t a r with
      | error e => exact ⟨[], by simp⟩
      | ok pr =>
          exact ⟨[], by simpa using add_balance_requests st q t a r pr.1 pr.2 (by rw [h])⟩
  | processReq rid =>
      rw [runOp, endpoint]
      cases h : process_request st rid with
      | error e => exact ⟨[], by simp⟩
      | ok pr =>
          exact ⟨[], by simp [process_request_state st rid pr.1 pr.2 (by rw [h])]⟩

/-! ## The claims -/

/-- C1.  As stated, the invariant `current_balance = Σ completed deposits −
Σ completed withdrawals` fails already for a freshly constructed wallet with
the default initial balance and an empty history: the balance is 10000 while
both sums are 0. -/
theorem C1_counterexample :
    ¬ ((runLedger (Wallet.mk 1 1 (walletInitBalance none)) []).1.current_balance
        = completedSum TransactionType.deposit
            (runLedger (Wallet.mk 1 1 (walletInitBalance none)) []).2
          - completedSum TransactionType.withdrawal
            (runLedger (Wallet.mk 1 1 (walletInitBalance none)) []).2) := by
  decide

/-- C1 (amended).  After any sequence of `Deposit.execute` /
`Withdrawal.execute` calls starting from wallet creation, `current_balance`
equals the wallet's **initial balance** plus the sum of completed deposit
amounts minus the sum of completed withdrawal amounts; in particular every
operation, including a failed withdrawal, preserves this equality. -/
theorem C1_balance_invariant_amended (sq n : Nat) (ib : Option Int)
    (ops : List LedgerOp) :
    (runLedger (Wallet.mk sq n (walletInitBalance ib)) ops).1.current_balance
      = walletInitBalance ib
        + completedSum TransactionType.deposit
            (runLedger (Wallet.mk sq n (walletInitBalance ib)) ops).2
        - completedSum TransactionType.withdrawal
            (runLedger (Wallet.mk sq n (walletInitBalance ib)) ops).2 :=
  runLedger_invariant (Wallet.mk sq n (walletInitBalance ib)) ops
    (by simp [ledgerInvariant, completedSum])

/-- C2.  `Withdrawal.execute` with `amount > current_balance` leaves the
balance unchanged, records the transaction `failed` with a comment stating
the deficit, and raises an error carrying deficit `amount − balance`;
with `amount ≤ current_balance` it decreases the balance by `amount` and
records the transaction `completed` with no error. -/
theorem C2_withdrawal_semantics (w : Wallet) (amount : Int) (reason : String) :
    (amount > w.current_balance →
      (Withdrawal.execute w amount reason).1.current_balance
        = w.current_balance ∧
      (Withdrawal.execute w amount reason).2.1.status
        = TransactionStatus.failed ∧
      (Withdrawal.execute w amount reason).2.1.comment
        = withdrawalFailComment w.current_balance
            (amount - w.current_balance) ∧
      (Withdrawal.execute w amount reason).2.2
        = some ⟨w.squad_number, amount - w.current_balance⟩) ∧
    (amount ≤ w.current_balance →
      (Withdrawal.execute w amount reason).1.current_balance
        = w.current_balance - amount ∧
      (Withdrawal.execute w amount reason).2.1.status
        = TransactionStatus.completed ∧
      (Withdrawal.execute w amount reason).2.2 = none) := by
  constructor
  · intro h
    simp [Withdrawal.execute, if_pos h]
  · intro h
    simp [Withdrawal.execute, if_neg (not_lt.mpr h)]

/-- Witness for C2 at the spec's scenario: balance 10000, `withdraw(12000)`
fails with deficit 2000 and an untouched balance; balance 5000,
`withdraw(3000)` completes leaving 2000. -/
theorem C2_withdrawal_semantics_witness :
    (Withdrawal.execute (Wallet.mk 1 1 10000) 12000 ("r")).1.current_balance
      = 10000 ∧
    (Withdrawal.execute (Wallet.mk 1 1 10000) 12000 ("r")).2.1.status
      = TransactionStatus.failed ∧
    (Withdrawal.execute (Wallet.mk 1 1 10000) 12000 ("r")).2.2
      = some ⟨1, 2000⟩ ∧
    (Withdrawal.execute (Wallet.mk 1 1 5000) 3000 ("r")).1.current_balance
      = 2000 := by
  have h1 := (C2_withdrawal_semantics (Wallet.mk 1 1 10000) 12000 ("r")).1
    (by decide)
  have h2 := (C2_withdrawal_semantics (Wallet.mk 1 1 5000) 3000 ("r")).2
    (by decide)
  refine ⟨h1.1, h1.2.1, ?_, ?_⟩
  · simpa using h1.2.2.2
  · simpa using h2.1

/-- C10.  `Wallet.__init__` with an explicit initial balance of 0 yields
`INITIAL_BALANCE = 10000` (the zero is falsy and treated as absent); with no
initial balance it also yields 10000; any nonzero initial balance is used
as given. -/
theorem C10_wallet_zero_initial_balance (v : Int) :
    walletInitBalance (some 0) = 10000 ∧
    walletInitBalance none = 10000 ∧
    (v ≠ 0 → walletInitBalance (some v) = v) := by
  refine ⟨rfl, rfl, fun hv => ?_⟩
  simp [walletInitBalance, hv]

/-- Witness for C10 at the nonzero balance 7. -/
theorem C10_wallet_zero_initial_balance_witness :
    walletInitBalance (some 7) = 7 :=
  (C10_wallet_zero_initial_balance 7).2.2 (by decide)

/-- C3.  `Line.get_sum_of_stations_by_squad` is the code behind the spec's
`line_bonus`.  On the fixture — squad 1 owns only station 2 (price 200) on
line 2, while line 1 consists of station 1 owned entirely by squad 2 — the
code returns `floor(200 × 3/2) = 300` for squad 1 on line 1 (it sums the
squad's stations on *all* lines and multiplies because line 1 is fully owned
by *some* squad), whereas the spec's `line_bonus` yields 0. -/
theorem C3_line_bonus_divergence :
    Line.get_sum_of_stations_by_squad C3squads C3stations C3line C3squad1
      = 300 ∧
    lineBonusSpec C3squads C3stations C3line C3squad1 = 0 := by
  constructor
  · have hown : Line.is_owned_by_one_squad C3squads C3stations C3line = true := by
      decide
    have hbase : ((squadStations C3stations C3squad1).foldl
        (fun acc station =>
          if stationOwner C3squads station == some C3squad1
          then acc + station.initial_price else acc) (0 : Int)) = 200 := by
      decide
    rw [Line.get_sum_of_stations_by_squad]
    simp only [hbase, hown, if_true]
    rw [show C3line.full_line_coef = 3/2 from rfl]
    rw [show (((200 : Int) : ℚ)) * (3/2 : ℚ) = ((300 : Int) : ℚ) by norm_num]
    exact rat_floor_intCast 300
  · decide

/-- C4 (counterexample).  Station 1 of `stateC4` is already owned by squad 2,
yet squad 1's purchase-request creation succeeds with a 201 response and the
request is persisted: no `StationAlreadyOwned` failure exists at creation. -/
theorem C4_counterexample :
    stationOwnerId stateC4 1 = some (some 2) ∧
    create_purchase_request stateC4 1 1 true
      = Except.ok (Response.mk 201
          ("Заявка на покупку станции Киевская создана."),
          { stateC4 with
            requests := [{ id := 1
                           status := RequestStatus.created
                           origin_squad_id := 1
                           data := RequestData.stationPurchase 1 }]
            nextRequestId := 2 }) := by
  exact ⟨rfl, rfl⟩

/-- C4 (amended).  Purchase-request creation performs no ownership check: a
request for an already-owned station is created and persisted whenever the
station exists, the prior-request scan passes, and the projected cost is
affordable.  The `StationAlreadyOwned` failure occurs only at approval time,
in `change_station_owner`, which rejects an owned station with a 400
response and leaves the state unchanged — before any balance change. -/
theorem C4_no_creation_ownership_check :
    (∀ (st : AppState) (u sid : Nat) (station : Station) (wallet : Wallet),
        one_or_none (fun s => s.id == sid) st.stations
          = Except.ok (some station) →
        station.owner_id.getD 0 ≠ 0 →
        scanPriorRequests station.id st.requests 0 = Except.ok 0 →
        st.wallets.find? (fun w => w.squad_id == u) = some wallet →
        station.initial_price ≤ wallet.current_balance →
        create_purchase_request st u sid true
          = Except.ok (Response.mk 201
              ("Заявка на покупку станции " ++ station.name ++ " создана."),
              { st with
                requests := st.requests ++
                  [{ id := st.nextRequestId
                     status := RequestStatus.created
                     origin_squad_id := u
                     data := RequestData.stationPurchase station.id }]
                nextRequestId := st.nextRequestId + 1 })) ∧
    (∀ (st : AppState) (sid : Nat) (qid : Int) (wallet : Wallet)
        (station : Station),
        qid ≠ -1 →
        one_or_none (fun w => ((w.squad_id : Int) == qid)) st.wallets
          = Except.ok (some wallet) →
        one_or_none (fun s => s.id == sid) st.stations
          = Except.ok (some station) →
        station.owner_id.getD 0 ≠ 0 →
        change_station_owner st sid qid
          = Except.ok (Response.mk 400
              ("Станция уже куплена. Перепродажа будет реализована позже."),
              st)) := by
  constructor
  · intro st u sid station wallet hs _how hscan hw hafford
    unfold create_purchase_request
    rw [if_neg (by simp)]
    simp only [hs, hscan, hw]
    rw [if_neg (by omega)]
  · intro st sid qid wallet station hq hw hs how
    unfold change_station_owner
    rw [if_neg (by simpa using hq)]
    simp only [hw, hs]
    rw [if_pos (by simpa using how)]

/-- Witness for C4 (amended): both conjuncts instantiated on `stateC4`,
whose station 1 is owned by squad 2. -/
theorem C4_no_creation_ownership_check_witness :
    create_purchase_request stateC4 1 1 true
      = Except.ok (Response.mk 201
          ("Заявка на покупку станции " ++ "Киевская" ++ " создана."),
          { stateC4 with
            requests := stateC4.requests ++
              [{ id := stateC4.nextRequestId
                 status := RequestStatus.created
                 origin_squad_id := 1
                 data := RequestData.stationPurchase 1 }]
            nextRequestId := stateC4.nextRequestId + 1 }) ∧
    change_station_owner stateC4 1 1
      = Except.ok (Response.mk 400
          ("Станция уже куплена. Перепродажа будет реализована позже."),
          stateC4) := by
  constructor
  · exact C4_no_creation_ownership_check.1 stateC4 1 1
      (Station.mk 1 ("Киевская") 5000 1 (some 2)) (Wallet.mk 1 1 10000)
      (by rfl) (by decide) (by rfl) (by rfl) (by decide)
  · exact C4_no_creation_ownership_check.2 stateC4 1 1 (Wallet.mk 1 1 10000)
      (Station.mk 1 ("Киевская") 5000 1 (some 2))
      (by decide) (by rfl) (by rfl) (by decide)

/-- C5.  Approving the `Created` purchase request of `stateC5` (price 12000
against a balance of 10000) does not surface an insufficient-funds result
and does not mark the request `Rejected`: `process_request` raises
`AttributeError` on `purchase_request.squad_id` before any withdrawal is
attempted, the session is rolled back, and the request stays `Created`
with the balance untouched.  (Nothing in src/main.py ever assigns
`RequestStatus.REJECTED`.) -/
theorem C5_rejection_fault :
    process_request stateC5 1 = Except.error ("squad_id") ∧
    runOp stateC5 (Op.processReq 1) = stateC5 ∧
    requestStatus (runOp stateC5 (Op.processReq 1)) 1
      = some RequestStatus.created ∧
    walletBalance (runOp stateC5 (Op.processReq 1)) 1 = some 10000 := by
  exact ⟨rfl, rfl, rfl, rfl⟩

/-- C6.  Approving the `Created` purchase request of `stateC6` — unowned
station priced 5000, balance 10000, every precondition of a successful
purchase — does not decrease the balance, set the owner, or mark the
request `Approved`: `process_request` raises `AttributeError` on
`purchase_request.squad_id` and the state is rolled back unchanged. -/
theorem C6_approval_fault :
    process_request stateC6 1 = Except.error ("squad_id") ∧
    runOp stateC6 (Op.processReq 1) = stateC6 ∧
    walletBalance (runOp stateC6 (Op.processReq 1)) 1 = some 10000 ∧
    stationOwnerId (runOp stateC6 (Op.processReq 1)) 1 = some none ∧
    requestStatus (runOp stateC6 (Op.processReq 1)) 1
      = some RequestStatus.created := by
  exact ⟨rfl, rfl, rfl, rfl, rfl⟩

/-- C7 (counterexample).  On the spec's exchange scenario (`stateC7`),
approving the `Created` exchange request transfers nothing: the call returns
501, station 1 stays owned by squad 1 (the claim requires it to become squad
2's), station 3 stays owned by squad 2, and both balances stay 10000 (the
claim requires 9000/11000). -/
theorem C7_counterexample :
    process_request stateC7 1
      = Except.ok (Response.mk 501
          ("Обработка других запросов будет реализована позже."), stateC7) ∧
    stationOwnerId (runOp stateC7 (Op.processReq 1)) 1 = some (some 1) ∧
    stationOwnerId (runOp stateC7 (Op.processReq 1)) 3 = some (some 2) ∧
    walletBalance (runOp stateC7 (Op.processReq 1)) 1 = some 10000 ∧
    walletBalance (runOp stateC7 (Op.processReq 1)) 2 = some 10000 ∧
    requestStatus (runOp stateC7 (Op.processReq 1)) 1
      = some RequestStatus.created := by
  exact ⟨rfl, rfl, rfl, rfl, rfl, rfl⟩

/-- C7 (amended).  Exchange-request processing is not implemented: approving
any `Created` exchange request returns a 501 not-implemented response and
leaves the entire state — station owners, balances, and the request itself —
unchanged. -/
theorem C7_exchange_not_implemented (st : AppState) (rid : Nat)
    (r : SquadRequest) (a : Nat) (os bs : List Nat) (yw aw : Int)
    (h1 : one_or_none (fun q => q.id == rid) st.requests
      = Except.ok (some r))
    (h2 : r.status = RequestStatus.created)
    (h3 : r.data = RequestData.exchange a os bs yw aw) :
    process_request st rid
      = Except.ok (Response.mk 501
          ("Обработка других запросов будет реализована позже."), st) := by
  unfold process_request
  rw [h1]
  simp [h2, h3]

/-- Witness for C7 (amended) on `stateC7`. -/
theorem C7_exchange_not_implemented_witness :
    process_request stateC7 1
      = Except.ok (Response.mk 501
          ("Обработка других запросов будет реализована позже."), stateC7) :=
  C7_exchange_not_implemented stateC7 1
    (SquadRequest.mk 1 RequestStatus.created 1
      (RequestData.exchange 2 [1, 2] [3] 1000 0))
    2 [1, 2] [3] 1000 0 (by rfl) (by rfl) (by rfl)

/-- C8.  Errors are *not* always returned as typed results: processing any
`Created` purchase request, and creating a purchase request while a prior
purchase request matches the station or is still `Created`, both evaluate
`purchase_request.squad_id` — an attribute `PurchaseStationRequest` does not
have — and terminate with an unrecoverable `AttributeError`. -/
theorem C8_attribute_error_fault :
    (∀ (st : AppState) (rid : Nat) (r : SquadRequest) (sid : Nat),
        one_or_none (fun q => q.id == rid) st.requests
          = Except.ok (some r) →
        r.status = RequestStatus.created →
        r.data = RequestData.stationPurchase sid →
        process_request st rid = Except.error ("squad_id")) ∧
    (∀ (st : AppState) (u sid : Nat) (station : Station) (r : SquadRequest)
        (rest : List SquadRequest) (sid2 : Nat),
        one_or_none (fun s => s.id == sid) st.stations
          = Except.ok (some station) →
        st.requests = r :: rest →
        r.data = RequestData.stationPurchase sid2 →
        (sid2 = station.id ∨ r.status = RequestStatus.created) →
        create_purchase_request st u sid true = Except.error ("squad_id")) := by
  constructor
  · intro st rid r sid h1 h2 h3
    unfold process_request
    rw [h1]
    simp [h2, h3]
  · intro st u sid station r rest sid2 hs hreq hdata hcase
    unfold create_purchase_request
    rw [if_neg (by simp)]
    rw [hs, hreq]
    rcases hcase with hc | hc
    · simp [scanPriorRequests, hdata, hc]
    · by_cases hmatch : sid2 = station.id
      · simp [scanPriorRequests, hdata, hmatch]
      · simp [scanPriorRequests, hdata, hmatch, hc]

/-- Witness for C8: processing the `Created` purchase request of `stateC8`,
and creating a second purchase request in `stateC8` (whose prior `Created`
request targets another station), both fault on `squad_id`. -/
theorem C8_attribute_error_fault_witness :
    process_request stateC8 1 = Except.error ("squad_id") ∧
    create_purchase_request stateC8 1 1 true = Except.error ("squad_id") := by
  constructor
  · exact C8_attribute_error_fault.1 stateC8 1
      (SquadRequest.mk 1 RequestStatus.created 1
        (RequestData.stationPurchase 2)) 2
      (by rfl) (by rfl) (by rfl)
  · exact C8_attribute_error_fault.2 stateC8 1 1
      (Station.mk 1 ("Киевская") 100 1 none)
      (SquadRequest.mk 1 RequestStatus.created 1
        (RequestData.stationPurchase 2)) [] 2
      (by rfl) (by rfl) (by rfl) (Or.inr rfl)

/-- C9.  The request state machine is one-way: (a) processing a request
whose status is not `Created` returns the `RequestAlreadyProcessed` error
("Запрос уже был обработан.") with the state — wallets, stations, and the
request itself — completely unchanged; (b) under every state-mutating
endpoint of src/main.py, a request whose status is terminal (`Approved` or
`Rejected`, i.e. not `Created`) keeps that status. -/
theorem C9_terminal_one_way :
    (∀ (st : AppState) (rid : Nat) (r : SquadRequest),
        one_or_none (fun q => q.id == rid) st.requests
          = Except.ok (some r) →
        r.status ≠ RequestStatus.created →
        process_request st rid
          = Except.ok (Response.mk 400 ("Запрос уже был обработан."), st)) ∧
    (∀ (st : AppState) (op : Op) (rid : Nat) (stt : RequestStatus),
        requestStatus st rid = some stt →
        stt ≠ RequestStatus.created →
        requestStatus (runOp st op) rid = some stt) := by
  constructor
  · intro st rid r h hs
    unfold process_request
    rw [h]
    simp [bne_iff_ne, hs]
  · intro st op rid stt h hst
    obtain ⟨tl, htl⟩ := runOp_requests_suffix st op
    unfold requestStatus at h ⊢
    rw [htl]
    cases hf : st.requests.find? (fun q => q.id == rid) with
    | none => rw [hf] at h; simp at h
    | some r =>
        rw [hf] at h
        simp at h
        rw [find?_append_of_some _ _ _ _ hf]
        simp [h]

/-- Witness for C9 on `stateC9`, whose request 1 is already `Approved`. -/
theorem C9_terminal_one_way_witness :
    process_request stateC9 1
      = Except.ok (Response.mk 400 ("Запрос уже был обработан."), stateC9) ∧
    requestStatus (runOp stateC9 (Op.processReq 1)) 1
      = some RequestStatus.approved := by
  constructor
  · exact C9_terminal_one_way.1 stateC9 1
      (SquadRequest.mk 1 RequestStatus.approved 1
        (RequestData.stationPurchase 1)) (by rfl) (by decide)
  · exact C9_terminal_one_way.2 stateC9 (Op.processReq 1) 1
      RequestStatus.approved (by rfl) (by decide)

end DrugbaMetro
